import Mathlib

/-!
Verification development for the share-settlement calculator (`app.py`).

The core of the program is the pure function `calculate` together with the
date helpers `days_inclusive` and `add_months`.  We embed the calculator
shallowly:

* Python `datetime.date` objects are modelled by `Date`: a year/month/day
  triple together with the validity invariant that the `date` constructor
  enforces (`1 <= year <= 9999`, `1 <= month <= 12`, day within the month,
  leap years respected).  Constructing a date is fallible (`mkDate` returns
  `Option Date`), mirroring the `ValueError` raised by out-of-range input.
* Date comparison is the tuple-lexicographic order used by Python;
  date subtraction is modelled through the proleptic-Gregorian ordinal
  (`toOrd`, the model of `date.toordinal`), so `(e - s).days = toOrd e - toOrd s`.
* Python floats are modelled by `ℚ`; every arithmetic step of the source is
  translated literally.
* The input mapping is modelled by `Params`, a record of optional typed
  fields; a `none` field stands for an absent/unparsable form field, in
  which case `calculate` applies the source's documented default.  The one
  time-dependent default (`join_date` falls back to `date.today()`) is made
  explicit by passing `today` as an argument.
* `calculate` returns `Option Result`: its only failure point is the
  construction of the projection-end date `add_months(projection_start,
  projection_months)`, which raises in Python when the target year leaves
  the representable range.
-/

namespace BVShares

/-- Leap-year test used by `add_months`:
`y % 4 == 0 and (y % 100 != 0 or y % 400 == 0)`. -/
def isLeap (y : Int) : Prop :=
  y % 4 = 0 ∧ (y % 100 ≠ 0 ∨ y % 400 = 0)

instance (y : Int) : Decidable (isLeap y) := by
  unfold isLeap; infer_instance

/-- Month lengths, the list `[31, 29/28, 31, 30, 31, 30, 31, 31, 30, 31, 30, 31]`
indexed at `m - 1` (written as a comparison chain so that it is total on `Int`). -/
def monthLength (y m : Int) : Int :=
  if m ≤ 1 then 31
  else if m ≤ 2 then (if isLeap y then 29 else 28)
  else if m ≤ 3 then 31
  else if m ≤ 4 then 30
  else if m ≤ 5 then 31
  else if m ≤ 6 then 30
  else if m ≤ 7 then 31
  else if m ≤ 8 then 31
  else if m ≤ 9 then 30
  else if m ≤ 10 then 31
  else if m ≤ 11 then 30
  else 31

/-- The validity invariant enforced by the `datetime.date` constructor. -/
def DateValid (y m d : Int) : Prop :=
  1 ≤ y ∧ y ≤ 9999 ∧ 1 ≤ m ∧ m ≤ 12 ∧ 1 ≤ d ∧ d ≤ monthLength y m

instance (y m d : Int) : Decidable (DateValid y m d) := by
  unfold DateValid; infer_instance

/-- A Python `datetime.date`: always a valid calendar date. -/
structure Date where
  year : Int
  month : Int
  day : Int
  valid : DateValid year month day

/-- The `date(y, m, d)` constructor: `none` models the `ValueError` raised on
invalid components (including a year outside `1..9999`). -/
def mkDate (y m d : Int) : Option Date :=
  if h : DateValid y m d then some ⟨y, m, d, h⟩ else none

/-- Python's `<` on dates: lexicographic on `(year, month, day)`. -/
def Date.lt (a b : Date) : Prop :=
  a.year < b.year ∨
    (a.year = b.year ∧ (a.month < b.month ∨ (a.month = b.month ∧ a.day < b.day)))

/-- Python's `<=` on dates. -/
def Date.le (a b : Date) : Prop :=
  Date.lt a b ∨ (a.year = b.year ∧ a.month = b.month ∧ a.day = b.day)

instance (a b : Date) : Decidable (Date.lt a b) := by
  unfold Date.lt; infer_instance

instance (a b : Date) : Decidable (Date.le a b) := by
  unfold Date.le; infer_instance

/-- Python's binary `max` on dates (`max(a, b)` returns `b` iff `a < b`). -/
def Date.maxD (a b : Date) : Date :=
  if Date.lt a b then b else a

instance : DecidableEq Date := fun a b =>
  if h : a.year = b.year ∧ a.month = b.month ∧ a.day = b.day then
    isTrue (by
      obtain ⟨h1, h2, h3⟩ := h
      cases a; cases b
      simp only at h1 h2 h3
      subst h1; subst h2; subst h3
      rfl)
  else
    isFalse (by
      intro he; subst he
      exact h ⟨rfl, rfl, rfl⟩)

/-- Days in all years before year `y` (the model of CPython's
`_days_before_year`). -/
def daysBeforeYear (y : Int) : Int :=
  365 * (y - 1) + (y - 1) / 4 - (y - 1) / 100 + (y - 1) / 400

/-- Days in year `y` preceding month `m` (the model of CPython's
`_days_before_month`: a cumulative table plus the leap-day adjustment for
`m > 2`). -/
def daysBeforeMonth (y m : Int) : Int :=
  (if m ≤ 1 then 0
   else if m ≤ 2 then 31
   else if m ≤ 3 then 59
   else if m ≤ 4 then 90
   else if m ≤ 5 then 120
   else if m ≤ 6 then 151
   else if m ≤ 7 then 181
   else if m ≤ 8 then 212
   else if m ≤ 9 then 243
   else if m ≤ 10 then 273
   else if m ≤ 11 then 304
   else 334)
  + (if 2 < m ∧ isLeap y then 1 else 0)

/-- The proleptic-Gregorian ordinal of a date (`date.toordinal`):
`0001-01-01` is day 1.  Python date subtraction satisfies
`(e - s).days = toOrd e - toOrd s`. -/
def toOrd (d : Date) : Int :=
  daysBeforeYear d.year + daysBeforeMonth d.year d.month + d.day

/--
```
def days_inclusive(start, end):
    if start is None or end is None: return 0
    if end < start: return 0
    return (end - start).days + 1
```
-/
def days_inclusive : Option Date → Option Date → Int
  | none, _ => 0
  | some _, none => 0
  | some s, some e => if Date.lt e s then 0 else (toOrd e - toOrd s) + 1

/--
```
def add_months(d, months):
    y = d.year + (d.month - 1 + months) // 12
    m = (d.month - 1 + months) % 12 + 1
    day = min(d.day, MONTH_LENGTHS[m-1])
    return date(y, m, day)
```
(`min(a, b)` is written as an `if`.)  `none` models the `ValueError` raised
by `date(...)` when `y` leaves `1..9999`.
-/
def add_months (d : Date) (months : Int) : Option Date :=
  let y := d.year + (d.month - 1 + months) / 12
  let m := (d.month - 1 + months) % 12 + 1
  let day := if d.day ≤ monthLength y m then d.day else monthLength y m
  mkDate y m day

/-! ### The calculator -/

/-- `date(2024, 9, 1)`, the default `calc_start`. -/
def dSep2024 : Date := ⟨2024, 9, 1, by decide⟩

/-- `date(2026, 1, 1)`, the default `projection_start` and `legal_fee_date`. -/
def dJan2026 : Date := ⟨2026, 1, 1, by decide⟩

/-- `date(2025, 1, 1)`, the default `director_start`. -/
def dJan2025 : Date := ⟨2025, 1, 1, by decide⟩

instance : Inhabited Date := ⟨dJan2026⟩

/-- The input mapping consumed by `calculate`.  A field is `none` when the
corresponding form value is absent or unparsable, in which case `calculate`
falls back to the source's default (Python floats are modelled by `ℚ`;
`projection_months` is the integer the source obtains via
`int(parse_float(...))`). -/
structure Params where
  share_pct : Option ℚ := none
  calc_start : Option Date := none
  join_date : Option Date := none
  projection_start : Option Date := none
  projection_months : Option Int := none
  director_start : Option Date := none
  past_cash_total : Option ℚ := none
  portal_val : Option ℚ := none
  finance_val : Option ℚ := none
  website_val : Option ℚ := none
  monthly_ops : Option ℚ := none
  legal_fee : Option ℚ := none
  legal_fee_date : Option Date := none
  director_salary_year : Option ℚ := none
  riv_bootcamp_start : Option Date := none
  riv_bootcamp_per_year : Option ℚ := none
  riv_bootcamp_amount : Option ℚ := none
  riv_coaching_start : Option Date := none
  riv_coaching_per_year : Option ℚ := none
  riv_coaching_amount : Option ℚ := none
  riv_llm_start : Option Date := none
  riv_llm_clients : Option ℚ := none
  riv_llm_monthly : Option ℚ := none

/-- The structured record returned by `calculate`: the echoed/normalized
inputs, the labeled numeric components of the past and projection
breakdowns, the projection window, the RIV sub-breakdown, and the summary
totals.  (Display labels and ISO formatting are presentation only; each
dictionary value of the source appears here as a field.) -/
structure Result where
  inputs_share_pct : ℚ
  inputs_calc_start : Date
  inputs_join_date : Date
  inputs_projection_start : Date
  inputs_projection_months : Int
  inputs_director_start : Date
  inputs_past_cash_total : ℚ
  inputs_portal_val : ℚ
  inputs_finance_val : ℚ
  inputs_website_val : ℚ
  inputs_monthly_ops : ℚ
  inputs_legal_fee : ℚ
  inputs_legal_fee_date : Date
  inputs_director_salary_year : ℚ
  inputs_riv_bootcamp_start : Date
  inputs_riv_bootcamp_per_year : ℚ
  inputs_riv_bootcamp_amount : ℚ
  inputs_riv_coaching_start : Date
  inputs_riv_coaching_per_year : ℚ
  inputs_riv_coaching_amount : ℚ
  inputs_riv_llm_start : Date
  inputs_riv_llm_clients : ℚ
  inputs_riv_llm_monthly : ℚ
  past_cash : ℚ
  assets_total : ℚ
  past_ops_cost : ℚ
  past_director_cost : ℚ
  past_legal : ℚ
  past_total_company : ℚ
  past_total_friend : ℚ
  proj_ops_cost : ℚ
  proj_director_cost : ℚ
  proj_legal : ℚ
  proj_total_company : ℚ
  proj_total_friend : ℚ
  proj_avg_month_friend : ℚ
  window_start : Date
  window_end : Date
  riv_bootcamp : ℚ
  riv_coaching : ℚ
  riv_llm : ℚ
  riv_total_company : ℚ
  riv_total_friend : ℚ
  summary_friend_due_to_join : ℚ
  summary_friend_future : ℚ
  summary_friend_total_all : ℚ
  summary_friend_riv_projection : ℚ
  summary_friend_net_after_riv : ℚ
  deriving Inhabited

/--
```
def riv_component(label, start_dt, annual_revenue):
    if start_dt is None or projection_months <= 0: return label, 0.0
    if start_dt > proj_end: return label, 0.0
    active_start = max(start_dt, proj_start)
    active_days = days_inclusive(active_start, proj_end)
    if active_days <= 0: return label, 0.0
    daily_revenue = annual_revenue / 365.25
    return label, daily_revenue * active_days
```
The closure variables `projection_months`, `proj_start`, `proj_end` are
passed explicitly; the display label is presentation only and dropped.
-/
def riv_component (projection_months : Int) (proj_start proj_end : Date) :
    Option Date → ℚ → ℚ
  | none, _ => 0
  | some start_dt, annual_revenue =>
    if projection_months ≤ 0 then 0
    else if Date.lt proj_end start_dt then 0
    else
      let active_start := Date.maxD start_dt proj_start
      let active_days := days_inclusive (some active_start) (some proj_end)
      if active_days ≤ 0 then 0
      else annual_revenue / 365.25 * (active_days : ℚ)

/-- The body of `calculate` once the projection end date `proj_end` has been
constructed successfully (the construction of `proj_end` is the single
fallible step of the source; everything else is straight-line arithmetic). -/
def calculateCore (today : Date) (p : Params) (proj_end : Date) : Result :=
  let share_pct := p.share_pct.getD 40 / 100
  let calc_start := p.calc_start.getD dSep2024
  let join_date := p.join_date.getD today
  let projection_start := p.projection_start.getD dJan2026
  let projection_months := p.projection_months.getD 24
  let director_start := p.director_start.getD dJan2025
  let past_cash_total := p.past_cash_total.getD 0
  let portal_val := p.portal_val.getD 0
  let finance_val := p.finance_val.getD 0
  let website_val := p.website_val.getD 0
  let monthly_ops := p.monthly_ops.getD 0
  let legal_fee := p.legal_fee.getD 0
  let legal_fee_date := p.legal_fee_date.getD dJan2026
  let director_salary_year := p.director_salary_year.getD 56000
  let bootcamp_start := p.riv_bootcamp_start.getD projection_start
  let bootcamp_per_year := p.riv_bootcamp_per_year.getD 4
  let bootcamp_amount := p.riv_bootcamp_amount.getD 7000
  let coaching_start := p.riv_coaching_start.getD projection_start
  let coaching_per_year := p.riv_coaching_per_year.getD 12
  let coaching_amount := p.riv_coaching_amount.getD 900
  let llm_start := p.riv_llm_start.getD projection_start
  let llm_clients := p.riv_llm_clients.getD 1
  let llm_monthly := p.riv_llm_monthly.getD 300
  let past_period_days := days_inclusive (some calc_start) (some join_date)
  let per_day_ops := monthly_ops * 12 / 365.25
  let past_ops_cost := per_day_ops * (past_period_days : ℚ)
  let director_days_past :=
    days_inclusive (some (Date.maxD director_start calc_start)) (some join_date)
  let per_day_director := director_salary_year / 365.25
  let past_director_cost := per_day_director * (director_days_past : ℚ)
  let past_legal := if Date.le legal_fee_date join_date then legal_fee else 0
  let assets_total := portal_val + finance_val + website_val
  let past_total_company :=
    past_cash_total + assets_total + past_ops_cost + past_director_cost + past_legal
  let past_total_friend := past_total_company * share_pct
  let proj_ops_cost := monthly_ops * (projection_months : ℚ)
  let proj_director_cost := director_salary_year * ((projection_months : ℚ) / 12)
  let proj_legal :=
    if Date.le projection_start legal_fee_date ∧ Date.le legal_fee_date proj_end
    then legal_fee else 0
  let proj_total_company := proj_ops_cost + proj_director_cost + proj_legal
  let proj_total_friend := proj_total_company * share_pct
  let proj_avg_month_friend :=
    if 0 < projection_months then proj_total_friend / (projection_months : ℚ) else 0
  let bootcamp_revenue :=
    riv_component projection_months projection_start proj_end
      (some bootcamp_start) (bootcamp_per_year * bootcamp_amount)
  let coaching_revenue :=
    riv_component projection_months projection_start proj_end
      (some coaching_start) (coaching_per_year * coaching_amount)
  let llm_revenue :=
    riv_component projection_months projection_start proj_end
      (some llm_start) (llm_clients * llm_monthly * 12)
  let riv_total_company := bootcamp_revenue + coaching_revenue + llm_revenue
  let riv_total_friend := riv_total_company * share_pct
  { inputs_share_pct := share_pct * 100
    inputs_calc_start := calc_start
    inputs_join_date := join_date
    inputs_projection_start := projection_start
    inputs_projection_months := projection_months
    inputs_director_start := director_start
    inputs_past_cash_total := past_cash_total
    inputs_portal_val := portal_val
    inputs_finance_val := finance_val
    inputs_website_val := website_val
    inputs_monthly_ops := monthly_ops
    inputs_legal_fee := legal_fee
    inputs_legal_fee_date := legal_fee_date
    inputs_director_salary_year := director_salary_year
    inputs_riv_bootcamp_start := bootcamp_start
    inputs_riv_bootcamp_per_year := bootcamp_per_year
    inputs_riv_bootcamp_amount := bootcamp_amount
    inputs_riv_coaching_start := coaching_start
    inputs_riv_coaching_per_year := coaching_per_year
    inputs_riv_coaching_amount := coaching_amount
    inputs_riv_llm_start := llm_start
    inputs_riv_llm_clients := llm_clients
    inputs_riv_llm_monthly := llm_monthly
    past_cash := past_cash_total
    assets_total := assets_total
    past_ops_cost := past_ops_cost
    past_director_cost := past_director_cost
    past_legal := past_legal
    past_total_company := past_total_company
    past_total_friend := past_total_friend
    proj_ops_cost := proj_ops_cost
    proj_director_cost := proj_director_cost
    proj_legal := proj_legal
    proj_total_company := proj_total_company
    proj_total_friend := proj_total_friend
    proj_avg_month_friend := proj_avg_month_friend
    window_start := projection_start
    window_end := proj_end
    riv_bootcamp := bootcamp_revenue
    riv_coaching := coaching_revenue
    riv_llm := llm_revenue
    riv_total_company := riv_total_company
    riv_total_friend := riv_total_friend
    summary_friend_due_to_join := past_total_friend
    summary_friend_future := proj_total_friend
    summary_friend_total_all := past_total_friend + proj_total_friend
    summary_friend_riv_projection := riv_total_friend
    summary_friend_net_after_riv :=
      past_total_friend + proj_total_friend - riv_total_friend }

/-- The core calculator `calculate(params)` of `app.py`.  `today` makes the
time-dependent default of `join_date` (line 55 uses `date.today()`) explicit.
The result is `none` exactly when
`add_months(projection_start, projection_months)` raises, i.e. when the
projection-end year leaves `1..9999`. -/
def calculate (today : Date) (p : Params) : Option Result :=
  (add_months (p.projection_start.getD dJan2026) (p.projection_months.getD 24)).map
    (calculateCore today p)

/-! ### Concrete inputs used by witnesses and counterexamples -/

/-- `date(2026, 1, 2)`. -/
def dJan2_2026 : Date := ⟨2026, 1, 2, by decide⟩

/-- `date(2026, 1, 15)`. -/
def dJan15_2026 : Date := ⟨2026, 1, 15, by decide⟩

/-- `date(2026, 2, 1)`. -/
def dFeb2026 : Date := ⟨2026, 2, 1, by decide⟩

/-- `date(2026, 3, 4)`. -/
def dMar2026 : Date := ⟨2026, 3, 4, by decide⟩

/-- `date(2025, 12, 1)`. -/
def dDec2025 : Date := ⟨2025, 12, 1, by decide⟩

/-- `date(2025, 3, 15)`. -/
def dMar2025 : Date := ⟨2025, 3, 15, by decide⟩

/-- `date(2028, 1, 1)`. -/
def dJan2028 : Date := ⟨2028, 1, 1, by decide⟩

/-- The empty form: every field takes its documented default. -/
def pDefaults : Params := {}

/-- Overlapping windows: `join_date` (2026-02-01) lies after
`projection_start` (2026-01-01) and the legal fee (2500 on 2026-01-15) is
dated before both bounds' ends; all other costs are zeroed. -/
def pBothCount : Params :=
  { join_date := some dFeb2026
    projection_start := some dJan2026
    projection_months := some 24
    director_salary_year := some 0
    legal_fee := some 2500
    legal_fee_date := some dJan15_2026 }

/-- A form with an explicit `join_date`. -/
def pJoinGiven : Params := { join_date := some dMar2026 }

/-- A months count whose projection end would need year 10359. -/
def pMonthsHuge : Params := { projection_months := some 100000 }

/-- A months count whose projection end would need year -6308. -/
def pMonthsNegHuge : Params := { projection_months := some (-100000) }

/-- All cost inputs zero (the director salary default is overridden to 0)
while the RIV revenue defaults stay positive. -/
def pNegNet : Params := { director_salary_year := some 0 }

/-- A moderate negative months count with a nonzero ops rate. -/
def pNegFive : Params := { projection_months := some (-5), monthly_ops := some 500 }

/-- First of a pair agreeing on all past-period fields. -/
def pFrameA : Params := { projection_months := some 24 }

/-- Second of the pair: different projection window and RIV stream fields,
identical past-period fields. -/
def pFrameB : Params :=
  { projection_start := some ⟨2026, 5, 1, by decide⟩
    projection_months := some 12
    riv_bootcamp_start := some dDec2025
    riv_llm_monthly := some 700 }

/-- The result `calculate` produces at a given input (meaningful when
`calculate` succeeds there). -/
def resultOf (today : Date) (p : Params) : Result :=
  (calculate today p).getD default

unseal Rat.add Rat.mul Rat.inv Rat.sub Rat.ofScientific

/-! ### Order and ordinal facts about the date model

Python compares `date` objects lexicographically and subtracts them through
their proleptic-Gregorian ordinals; the two agree on valid dates.  The lemmas
below establish this agreement, which underlies the non-negativity of
`days_inclusive`. -/

theorem dbm_day_bounds (y m d : Int) (h1 : 1 ≤ m) (h2 : m ≤ 12)
    (h3 : 1 ≤ d) (h4 : d ≤ monthLength y m) :
    1 ≤ daysBeforeMonth y m + d ∧
      daysBeforeMonth y m + d ≤ 365 + (if isLeap y then 1 else 0) := by
  by_cases hL : isLeap y
  · interval_cases m <;> simp [daysBeforeMonth, monthLength, hL] at h4 ⊢ <;> omega
  · interval_cases m <;> simp [daysBeforeMonth, monthLength, hL] at h4 ⊢ <;> omega

theorem dby_succ (y : Int) :
    daysBeforeYear (y + 1) = daysBeforeYear y + 365 + (if isLeap y then 1 else 0) := by
  unfold daysBeforeYear
  by_cases hL : isLeap y <;> simp [hL] <;> unfold isLeap at hL <;> omega

theorem dby_mono (y1 y2 : Int) (h : y1 ≤ y2) :
    daysBeforeYear y1 ≤ daysBeforeYear y2 := by
  unfold daysBeforeYear
  omega

theorem dbm_lt (y m1 m2 d1 d2 : Int) (h1 : 1 ≤ m1) (hlt : m1 < m2) (h2 : m2 ≤ 12)
    (hd1 : d1 ≤ monthLength y m1) (hd2 : 1 ≤ d2) :
    daysBeforeMonth y m1 + d1 < daysBeforeMonth y m2 + d2 := by
  have h1' : m1 ≤ 11 := by omega
  by_cases hL : isLeap y
  · interval_cases m1 <;> interval_cases m2 <;>
      simp [daysBeforeMonth, monthLength, hL] at hd1 ⊢ <;> omega
  · interval_cases m1 <;> interval_cases m2 <;>
      simp [daysBeforeMonth, monthLength, hL] at hd1 ⊢ <;> omega

theorem toOrd_strict_mono (a b : Date) (h : Date.lt a b) : toOrd a < toOrd b := by
  obtain ⟨ya, ma, da, va⟩ := a
  obtain ⟨yb, mb, db, vb⟩ := b
  obtain ⟨hy1a, hy2a, hm1a, hm2a, hd1a, hd2a⟩ := va
  obtain ⟨hy1b, hy2b, hm1b, hm2b, hd1b, hd2b⟩ := vb
  unfold Date.lt at h
  unfold toOrd
  simp only at h ⊢
  rcases h with hy | ⟨hy, hm | ⟨hm, hd⟩⟩
  · have hba := dbm_day_bounds ya ma da hm1a hm2a hd1a hd2a
    have hbb := dbm_day_bounds yb mb db hm1b hm2b hd1b hd2b
    have hsucc := dby_succ ya
    have hmono := dby_mono (ya + 1) yb (by omega)
    omega
  · subst hy
    have := dbm_lt ya ma mb da db hm1a hm hm2b hd2a hd1b
    omega
  · subst hy; subst hm
    omega

theorem toOrd_mono (a b : Date) (h : Date.le a b) : toOrd a ≤ toOrd b := by
  rcases h with h | ⟨h1, h2, h3⟩
  · exact le_of_lt (toOrd_strict_mono a b h)
  · unfold toOrd
    rw [h1, h2, h3]

theorem date_le_of_not_lt (a b : Date) (h : ¬ Date.lt a b) : Date.le b a := by
  unfold Date.lt at h
  unfold Date.le Date.lt
  omega

theorem date_lt_irrefl (a : Date) : ¬ Date.lt a a := by
  unfold Date.lt
  omega

theorem date_le_lt_trans (a b c : Date) (h1 : Date.le a b) (h2 : Date.lt b c) :
    Date.lt a c := by
  unfold Date.le Date.lt at *
  omega

theorem date_lt_le_trans (a b c : Date) (h1 : Date.lt a b) (h2 : Date.le b c) :
    Date.lt a c := by
  unfold Date.le Date.lt at *
  omega

theorem date_not_le_of_lt (a b : Date) (h : Date.lt a b) : ¬ Date.le b a := by
  unfold Date.le Date.lt at *
  omega

theorem date_eq_of_le_of_not_lt (a b : Date) (h1 : Date.le a b)
    (h2 : ¬ Date.lt a b) : a = b := by
  unfold Date.le Date.lt at *
  rcases h1 with h1 | ⟨hy, hm, hd⟩
  · exact absurd h1 h2
  · cases a; cases b
    simp only at hy hm hd
    subst hy; subst hm; subst hd
    rfl

theorem days_inclusive_nonneg (s e : Option Date) : 0 ≤ days_inclusive s e := by
  match s, e with
  | none, _ => simp [days_inclusive]
  | some _, none => simp [days_inclusive]
  | some s0, some e0 =>
    simp only [days_inclusive]
    split
    · omega
    · rename_i hlt
      have := toOrd_mono s0 e0 (date_le_of_not_lt e0 s0 hlt)
      omega

theorem mkDate_some (y m d : Int) (e : Date) (h : mkDate y m d = some e) :
    e.year = y ∧ e.month = m ∧ e.day = d ∧ DateValid y m d := by
  unfold mkDate at h
  split at h
  · rename_i hv
    cases h
    exact ⟨rfl, rfl, rfl, hv⟩
  · cases h

/-- Adding at least one calendar month moves strictly forward in time. -/
theorem add_months_pos_lt (ps pe : Date) (k : Int) (hk : 1 ≤ k)
    (h : add_months ps k = some pe) : Date.lt ps pe := by
  unfold add_months at h
  simp only at h
  obtain ⟨hy, hm, _, _⟩ := mkDate_some _ _ _ _ h
  obtain ⟨_, _, hm1, hm2, _, _⟩ := ps.valid
  unfold Date.lt
  omega

theorem riv_component_nonneg (k : Int) (ps pe : Date) (st : Option Date)
    (annual : ℚ) (h : 0 ≤ annual) : 0 ≤ riv_component k ps pe st annual := by
  match st with
  | none => simp [riv_component]
  | some s =>
    simp only [riv_component]
    split
    · exact le_refl 0
    · split
      · exact le_refl 0
      · split
        · exact le_refl 0
        · rename_i hdays
          have hd : (0 : ℚ) ≤
              ((days_inclusive (some (Date.maxD s ps)) (some pe) : Int) : ℚ) := by
            exact_mod_cast days_inclusive_nonneg (some (Date.maxD s ps)) (some pe)
          exact mul_nonneg (div_nonneg h (by norm_num)) hd

theorem calculate_eq_some (t : Date) (p : Params) (r : Result) :
    calculate t p = some r ↔
      ∃ pe, add_months (p.projection_start.getD dJan2026)
          (p.projection_months.getD 24) = some pe ∧
        calculateCore t p pe = r := by
  unfold calculate
  exact Option.map_eq_some'

/-! ### The claims -/

theorem date_le_trans (a b c : Date) (h1 : Date.le a b) (h2 : Date.le b c) :
    Date.le a c := by
  unfold Date.le Date.lt at *
  omega

theorem date_le_of_lt (a b : Date) (h : Date.lt a b) : Date.le a b := Or.inl h

/-- C5: days_inclusive is 0 on a missing endpoint or a reversed range, and
otherwise counts both endpoints: (end - start) + 1; in particular one day
for equal endpoints. -/
theorem c5_days_inclusive (eo : Option Date) (s0 e0 d : Date) :
    days_inclusive none eo = 0 ∧
    days_inclusive (some s0) none = 0 ∧
    (Date.lt e0 s0 → days_inclusive (some s0) (some e0) = 0) ∧
    (¬ Date.lt e0 s0 →
      days_inclusive (some s0) (some e0) = (toOrd e0 - toOrd s0) + 1) ∧
    days_inclusive (some d) (some d) = 1 := by
  refine ⟨rfl, rfl, ?_, ?_, ?_⟩
  · intro h
    simp only [days_inclusive, if_pos h]
  · intro h
    simp only [days_inclusive, if_neg h]
  · simp only [days_inclusive, if_neg (date_lt_irrefl d)]
    omega

/-- C5 witness: concrete instances of each clause. -/
theorem c5_days_inclusive_witness :
    days_inclusive (some dJan2026) (some dSep2024) = 0 ∧
    days_inclusive (some dSep2024) (some dJan2026)
      = (toOrd dJan2026 - toOrd dSep2024) + 1 ∧
    days_inclusive (some dJan2025) (some dJan2025) = 1 :=
  ⟨(c5_days_inclusive none dJan2026 dSep2024 dJan2025).2.2.1 (by decide),
   (c5_days_inclusive none dSep2024 dJan2026 dJan2025).2.2.2.1 (by decide),
   (c5_days_inclusive none dSep2024 dJan2026 dJan2025).2.2.2.2⟩

/-- C6: add_months uses integer div/mod on (month - 1 + months), clamps the
day to the last valid day of the target month (leap years respected, never
overflowing into the next month), and adding 12 months is the identity on
month/day whenever the target date is valid. -/
theorem c6_add_months (d e : Date) (k : Int) :
    (add_months d k =
      mkDate (d.year + (d.month - 1 + k) / 12) ((d.month - 1 + k) % 12 + 1)
        (if d.day ≤ monthLength (d.year + (d.month - 1 + k) / 12)
              ((d.month - 1 + k) % 12 + 1)
         then d.day
         else monthLength (d.year + (d.month - 1 + k) / 12)
              ((d.month - 1 + k) % 12 + 1))) ∧
    (add_months d k = some e →
      e.year = d.year + (d.month - 1 + k) / 12 ∧
      e.month = (d.month - 1 + k) % 12 + 1 ∧
      1 ≤ e.day ∧ e.day ≤ monthLength e.year e.month) ∧
    (add_months ⟨2024, 1, 31, by decide⟩ 1 = some ⟨2024, 2, 29, by decide⟩ ∧
     add_months ⟨2023, 1, 31, by decide⟩ 1 = some ⟨2023, 2, 28, by decide⟩) ∧
    (DateValid (d.year + 1) d.month d.day →
      add_months d 12 = mkDate (d.year + 1) d.month d.day) := by
  refine ⟨rfl, ?_, ⟨by decide, by decide⟩, ?_⟩
  · intro h
    unfold add_months at h
    simp only at h
    obtain ⟨hy, hm, hd, hv⟩ := mkDate_some _ _ _ _ h
    obtain ⟨_, _, _, _, hd1, hd2⟩ := hv
    refine ⟨hy, hm, ?_, ?_⟩
    · omega
    · rw [hy, hm]; omega
  · intro hv
    obtain ⟨_, _, hm1, hm2, hday1, _⟩ := d.valid
    unfold add_months
    simp only
    rw [show (d.month - 1 + 12) / 12 = 1 from by omega,
        show (d.month - 1 + 12) % 12 + 1 = d.month from by omega]
    obtain ⟨_, _, _, _, _, hvday⟩ := hv
    rw [if_pos hvday]

/-- C6 witness: adding 12 months to 2025-03-15. -/
theorem c6_add_months_witness :
    add_months dMar2025 12 = mkDate (dMar2025.year + 1) dMar2025.month dMar2025.day :=
  (c6_add_months dMar2025 dMar2025 12).2.2.2 (by decide)

/-- C7: each revenue stream contributes 0 when its start is undefined, the
months count is nonpositive, or the start falls after the projection end;
otherwise it accrues the daily rate over the inclusive active window, which
is the full projection window when the stream starts at or before
projection start. -/
theorem c7_riv_accrual (k : Int) (ps pe s : Date) (st : Option Date) (annual : ℚ) :
    riv_component k ps pe none annual = 0 ∧
    (k ≤ 0 → riv_component k ps pe st annual = 0) ∧
    (Date.lt pe s → riv_component k ps pe (some s) annual = 0) ∧
    (0 < k → ¬ Date.lt pe s →
      riv_component k ps pe (some s) annual
        = annual / 365.25
          * ((days_inclusive (some (Date.maxD s ps)) (some pe) : Int) : ℚ)) ∧
    (0 < k → add_months ps k = some pe → Date.le s ps →
      riv_component k ps pe (some s) annual
        = annual / 365.25 * ((days_inclusive (some ps) (some pe) : Int) : ℚ)) := by
  have key : ∀ s' : Date, 0 < k → ¬ Date.lt pe s' →
      riv_component k ps pe (some s') annual
        = annual / 365.25
          * ((days_inclusive (some (Date.maxD s' ps)) (some pe) : Int) : ℚ) := by
    intro s' hk hlt
    simp only [riv_component, if_neg (by omega : ¬ k ≤ 0), if_neg hlt]
    split
    · rename_i hd
      have h0 : days_inclusive (some (Date.maxD s' ps)) (some pe) = 0 := by
        have := days_inclusive_nonneg (some (Date.maxD s' ps)) (some pe)
        omega
      rw [h0]
      norm_num
    · rfl
  refine ⟨rfl, ?_, ?_, key s, ?_⟩
  · intro hk
    cases st with
    | none => rfl
    | some s' => simp only [riv_component, if_pos hk]
  · intro hlt
    by_cases hk : k ≤ 0
    · simp only [riv_component, if_pos hk]
    · simp only [riv_component, if_neg hk, if_pos hlt]
  · intro hk hadd hle
    have hpslt : Date.lt ps pe := add_months_pos_lt ps pe k (by omega) hadd
    have hslt : Date.lt s pe := date_le_lt_trans s ps pe hle hpslt
    have hnlt : ¬ Date.lt pe s := by
      intro hc
      exact absurd (date_le_of_lt s pe hslt) (date_not_le_of_lt pe s hc)
    have hmax : Date.maxD s ps = ps := by
      unfold Date.maxD
      split
      · rfl
      · rename_i hns
        rw [date_eq_of_le_of_not_lt s ps hle hns]
    have := key s hk hnlt
    rw [hmax] at this
    exact this

/-- C7 witness: a stream starting before the window accrues over the whole
window 2026-01-01 .. 2028-01-01. -/
theorem c7_riv_accrual_witness :
    riv_component 24 dJan2026 dJan2028 (some dDec2025) 28000
      = 28000 / 365.25 * ((days_inclusive (some dJan2026) (some dJan2028) : Int) : ℚ) :=
  (c7_riv_accrual 24 dJan2026 dJan2028 dDec2025 none 28000).2.2.2.2
    (by decide) (by decide) (by decide)

/-- C3 counterexample: a projection_months value of 100000 makes the
projection-end construction raise (year 10359), so calculate does not
return a result. -/
theorem c3_counterexample : calculate dJan2026 pMonthsHuge = none := rfl

/-- C3 amended: calculate completes and returns a result exactly when the
projection-end date is constructible, i.e. its target year stays in 1..9999;
every other computation path is total. -/
theorem c3_total_iff_proj_end (t : Date) (p : Params) :
    (calculate t p).isSome
      = (add_months (p.projection_start.getD dJan2026)
          (p.projection_months.getD 24)).isSome := by
  unfold calculate
  cases add_months (p.projection_start.getD dJan2026) (p.projection_months.getD 24) <;>
    rfl

/-- C10 counterexample: with projection_months = -100000 the projection-end
construction raises (year -6308); calculate does not return a result. -/
theorem c10_counterexample : calculate dJan2026 pMonthsNegHuge = none := rfl

/-- C10 amended: whenever a negative months count still yields a
constructible projection end, the projection costs are the unclamped
straight-line products (nonpositive when the rates are nonnegative), every
RIV stream contributes 0, and the monthly average is 0. -/
theorem c10_negative_months (t : Date) (p : Params) (r : Result) (k : Int)
    (hk : p.projection_months = some k) (hneg : k < 0)
    (h : calculate t p = some r) :
    r.proj_ops_cost = r.inputs_monthly_ops * (k : ℚ) ∧
    r.proj_director_cost = r.inputs_director_salary_year * ((k : ℚ) / 12) ∧
    (0 ≤ r.inputs_monthly_ops → r.proj_ops_cost ≤ 0) ∧
    (0 ≤ r.inputs_director_salary_year → r.proj_director_cost ≤ 0) ∧
    r.riv_bootcamp = 0 ∧ r.riv_coaching = 0 ∧ r.riv_llm = 0 ∧
    r.proj_avg_month_friend = 0 := by
  obtain ⟨pe, hpe, hr⟩ := (calculate_eq_some t p r).mp h
  subst hr
  simp only [calculateCore, hk, Option.getD_some]
  have hkq : ((k : Int) : ℚ) ≤ 0 := by exact_mod_cast le_of_lt hneg
  refine ⟨by trivial, by trivial, ?_, ?_, ?_, ?_, ?_, ?_⟩
  · intro hm
    exact mul_nonpos_iff.mpr (Or.inl ⟨hm, hkq⟩)
  · intro hs
    exact mul_nonpos_iff.mpr (Or.inl ⟨hs, by linarith⟩)
  · simp only [riv_component, if_pos (le_of_lt hneg)]
  · simp only [riv_component, if_pos (le_of_lt hneg)]
  · simp only [riv_component, if_pos (le_of_lt hneg)]
  · rw [if_neg (by omega : ¬ 0 < k)]

/-- C10 witness: projection_months = -5 with a 500 ops rate. -/
theorem c10_negative_months_witness :
    (resultOf dJan2026 pNegFive).proj_ops_cost
        = (resultOf dJan2026 pNegFive).inputs_monthly_ops * ((-5 : Int) : ℚ) ∧
    (resultOf dJan2026 pNegFive).riv_bootcamp = 0 ∧
    (resultOf dJan2026 pNegFive).proj_avg_month_friend = 0 := by
  have h := c10_negative_months dJan2026 pNegFive (resultOf dJan2026 pNegFive)
    (-5) rfl (by decide) rfl
  exact ⟨h.1, h.2.2.2.2.1, h.2.2.2.2.2.2.2⟩

/-- C1 counterexample: with join_date 2026-02-01, projection window
2026-01-01..2028-01-01 and legal fee 2500 dated 2026-01-15, the fee is
counted in BOTH the past and the projection totals. -/
theorem c1_counterexample :
    (calculate dJan2026 pBothCount).map Result.past_legal = some 2500 ∧
    (calculate dJan2026 pBothCount).map Result.proj_legal = some 2500 ∧
    (calculate dJan2026 pBothCount).map Result.past_total_company = some 2500 ∧
    (calculate dJan2026 pBothCount).map Result.proj_total_company = some 2500 ∧
    (2500 : ℚ) ≠ 0 := by
  refine ⟨by decide, by decide, by decide, by decide, by norm_num⟩

/-- C1 amended: past and projection attribution are exactly the date-range
tests of the source; when the past and projection windows are disjoint
(join_date before projection_start) the fee is never counted in both, and a
fee dated strictly between join_date and projection_start is counted in
neither. -/
theorem c1_legal_fee_attribution (t : Date) (p : Params) (r : Result)
    (h : calculate t p = some r) :
    (r.past_legal =
      if Date.le r.inputs_legal_fee_date r.inputs_join_date
      then r.inputs_legal_fee else 0) ∧
    (r.proj_legal =
      if Date.le r.inputs_projection_start r.inputs_legal_fee_date ∧
          Date.le r.inputs_legal_fee_date r.window_end
      then r.inputs_legal_fee else 0) ∧
    (Date.lt r.inputs_join_date r.inputs_projection_start →
      r.past_legal = 0 ∨ r.proj_legal = 0) ∧
    (Date.lt r.inputs_join_date r.inputs_legal_fee_date ∧
        Date.lt r.inputs_legal_fee_date r.inputs_projection_start →
      r.past_legal = 0 ∧ r.proj_legal = 0) := by
  obtain ⟨pe, hpe, hr⟩ := (calculate_eq_some t p r).mp h
  subst hr
  simp only [calculateCore]
  refine ⟨by trivial, by trivial, ?_, ?_⟩
  · intro hjlt
    by_cases hpl : Date.le (p.legal_fee_date.getD dJan2026) (p.join_date.getD t)
    · right
      rw [if_neg]
      rintro ⟨hps, _⟩
      have hPSJ := date_le_trans _ _ _ hps hpl
      exact date_lt_irrefl _ (date_le_lt_trans _ _ _ hPSJ hjlt)
    · left
      rw [if_neg hpl]
  · rintro ⟨h1, h2⟩
    constructor
    · rw [if_neg (date_not_le_of_lt _ _ h1)]
    · rw [if_neg]
      rintro ⟨hc, _⟩
      exact date_lt_irrefl _ (date_le_lt_trans _ _ _ hc h2)

/-- C1 witness: the attribution equations instantiated at the overlapping
configuration. -/
theorem c1_legal_fee_attribution_witness :
    (resultOf dJan2026 pBothCount).past_legal =
      (if Date.le (resultOf dJan2026 pBothCount).inputs_legal_fee_date
            (resultOf dJan2026 pBothCount).inputs_join_date
       then (resultOf dJan2026 pBothCount).inputs_legal_fee else 0) ∧
    (resultOf dJan2026 pBothCount).proj_legal =
      (if Date.le (resultOf dJan2026 pBothCount).inputs_projection_start
            (resultOf dJan2026 pBothCount).inputs_legal_fee_date ∧
          Date.le (resultOf dJan2026 pBothCount).inputs_legal_fee_date
            (resultOf dJan2026 pBothCount).window_end
       then (resultOf dJan2026 pBothCount).inputs_legal_fee else 0) :=
  ⟨(c1_legal_fee_attribution dJan2026 pBothCount (resultOf dJan2026 pBothCount) rfl).1,
   (c1_legal_fee_attribution dJan2026 pBothCount (resultOf dJan2026 pBothCount) rfl).2.1⟩

/-- C2 counterexample: on a mapping with no join_date, two invocations on
different days give different outputs (the join_date default is
date.today()). -/
theorem c2_counterexample :
    calculate dJan2026 pDefaults ≠ calculate dJan2_2026 pDefaults := by
  intro h
  exact absurd (congrArg (Option.map Result.past_director_cost) h) (by decide)

/-- C2 amended: whenever the join_date field is present in the mapping, the
output is independent of the invocation time (and the computation is pure:
it is a function of its input). -/
theorem c2_deterministic_given_join (t1 t2 : Date) (p : Params) (j : Date)
    (hj : p.join_date = some j) : calculate t1 p = calculate t2 p := by
  unfold calculate
  congr 1
  funext pe
  simp only [calculateCore, hj, Option.getD_some]

/-- C2 witness: with join_date given, invocations on 2026-01-01 and
2026-01-02 agree. -/
theorem c2_deterministic_given_join_witness :
    calculate dJan2026 pJoinGiven = calculate dJan2_2026 pJoinGiven :=
  c2_deterministic_given_join dJan2026 dJan2_2026 pJoinGiven dMar2026 rfl

/-- C9: two inputs agreeing on sharePercent and all past-period fields (and
invoked at the same time) yield identical past company/stakeholder totals
and an identical friend_due_to_join summary figure, regardless of their
projection and RIV stream fields. -/
theorem c9_past_frame (t : Date) (p1 p2 : Params) (r1 r2 : Result)
    (hs : p1.share_pct = p2.share_pct)
    (hcs : p1.calc_start = p2.calc_start)
    (hjd : p1.join_date = p2.join_date)
    (hds : p1.director_start = p2.director_start)
    (hpc : p1.past_cash_total = p2.past_cash_total)
    (hpv : p1.portal_val = p2.portal_val)
    (hfv : p1.finance_val = p2.finance_val)
    (hwv : p1.website_val = p2.website_val)
    (hmo : p1.monthly_ops = p2.monthly_ops)
    (hlf : p1.legal_fee = p2.legal_fee)
    (hlfd : p1.legal_fee_date = p2.legal_fee_date)
    (hdsy : p1.director_salary_year = p2.director_salary_year)
    (h1 : calculate t p1 = some r1) (h2 : calculate t p2 = some r2) :
    r1.past_total_company = r2.past_total_company ∧
    r1.past_total_friend = r2.past_total_friend ∧
    r1.summary_friend_due_to_join = r2.summary_friend_due_to_join := by
  obtain ⟨pe1, hpe1, hr1⟩ := (calculate_eq_some t p1 r1).mp h1
  obtain ⟨pe2, hpe2, hr2⟩ := (calculate_eq_some t p2 r2).mp h2
  subst hr1
  subst hr2
  simp only [calculateCore]
  rw [hs, hcs, hjd, hds, hpc, hpv, hfv, hwv, hmo, hlf, hlfd, hdsy]
  exact ⟨rfl, rfl, rfl⟩

/-- C9 witness: two concrete inputs differing only in projection window and
RIV stream fields have identical past totals. -/
theorem c9_past_frame_witness :
    (resultOf dJan2026 pFrameA).past_total_company
      = (resultOf dJan2026 pFrameB).past_total_company ∧
    (resultOf dJan2026 pFrameA).past_total_friend
      = (resultOf dJan2026 pFrameB).past_total_friend ∧
    (resultOf dJan2026 pFrameA).summary_friend_due_to_join
      = (resultOf dJan2026 pFrameB).summary_friend_due_to_join :=
  c9_past_frame dJan2026 pFrameA pFrameB
    (resultOf dJan2026 pFrameA) (resultOf dJan2026 pFrameB)
    rfl rfl rfl rfl rfl rfl rfl rfl rfl rfl rfl rfl rfl rfl

/-- C4 counterexample: with every numeric input non-negative (all costs
zero, RIV revenue defaults positive) the summary figure
friend_net_after_riv is negative. -/
theorem c4_counterexample :
    (calculate dJan2026 pNegNet).isSome = true ∧
    0 ≤ (resultOf dJan2026 pNegNet).inputs_share_pct ∧
    0 ≤ (resultOf dJan2026 pNegNet).inputs_past_cash_total ∧
    0 ≤ (resultOf dJan2026 pNegNet).inputs_portal_val ∧
    0 ≤ (resultOf dJan2026 pNegNet).inputs_finance_val ∧
    0 ≤ (resultOf dJan2026 pNegNet).inputs_website_val ∧
    0 ≤ (resultOf dJan2026 pNegNet).inputs_monthly_ops ∧
    0 ≤ (resultOf dJan2026 pNegNet).inputs_legal_fee ∧
    0 ≤ (resultOf dJan2026 pNegNet).inputs_director_salary_year ∧
    0 ≤ (resultOf dJan2026 pNegNet).inputs_riv_bootcamp_per_year ∧
    0 ≤ (resultOf dJan2026 pNegNet).inputs_riv_bootcamp_amount ∧
    0 ≤ (resultOf dJan2026 pNegNet).inputs_riv_coaching_per_year ∧
    0 ≤ (resultOf dJan2026 pNegNet).inputs_riv_coaching_amount ∧
    0 ≤ (resultOf dJan2026 pNegNet).inputs_riv_llm_clients ∧
    0 ≤ (resultOf dJan2026 pNegNet).inputs_riv_llm_monthly ∧
    0 ≤ (resultOf dJan2026 pNegNet).inputs_projection_months ∧
    (resultOf dJan2026 pNegNet).summary_friend_net_after_riv < 0 := by
  decide

/-- C4 amended: with all numeric inputs non-negative, every monetary total
except friend_net_after_riv is non-negative (the net summary figure
subtracts the revenue share and can legitimately be negative). -/
theorem c4_totals_nonneg (t : Date) (p : Params) (r : Result)
    (h : calculate t p = some r)
    (hs : 0 ≤ r.inputs_share_pct)
    (h1 : 0 ≤ r.inputs_past_cash_total)
    (h2 : 0 ≤ r.inputs_portal_val)
    (h3 : 0 ≤ r.inputs_finance_val)
    (h4 : 0 ≤ r.inputs_website_val)
    (h5 : 0 ≤ r.inputs_monthly_ops)
    (h6 : 0 ≤ r.inputs_legal_fee)
    (h7 : 0 ≤ r.inputs_director_salary_year)
    (h8 : 0 ≤ r.inputs_riv_bootcamp_per_year)
    (h9 : 0 ≤ r.inputs_riv_bootcamp_amount)
    (h10 : 0 ≤ r.inputs_riv_coaching_per_year)
    (h11 : 0 ≤ r.inputs_riv_coaching_amount)
    (h12 : 0 ≤ r.inputs_riv_llm_clients)
    (h13 : 0 ≤ r.inputs_riv_llm_monthly)
    (hm : 0 ≤ r.inputs_projection_months) :
    0 ≤ r.past_total_company ∧ 0 ≤ r.past_total_friend ∧
    0 ≤ r.proj_total_company ∧ 0 ≤ r.proj_total_friend ∧
    0 ≤ r.riv_total_company ∧ 0 ≤ r.riv_total_friend ∧
    0 ≤ r.proj_avg_month_friend ∧
    0 ≤ r.summary_friend_due_to_join ∧ 0 ≤ r.summary_friend_future ∧
    0 ≤ r.summary_friend_total_all ∧ 0 ≤ r.summary_friend_riv_projection := by
  obtain ⟨pe, hpe, hr⟩ := (calculate_eq_some t p r).mp h
  subst hr
  simp only [calculateCore] at hs h1 h2 h3 h4 h5 h6 h7 h8 h9 h10 h11 h12 h13 hm ⊢
  have hs' : 0 ≤ p.share_pct.getD 40 := by
    have e : p.share_pct.getD 40 / 100 * 100 = p.share_pct.getD 40 := by ring
    rw [e] at hs
    exact hs
  have hsh : 0 ≤ p.share_pct.getD 40 / 100 := div_nonneg hs' (by norm_num)
  have hd1 : (0 : ℚ) ≤ (days_inclusive (some (p.calc_start.getD dSep2024))
      (some (p.join_date.getD t)) : ℚ) := by
    exact_mod_cast days_inclusive_nonneg _ _
  have hd2 : (0 : ℚ) ≤ (days_inclusive
      (some ((p.director_start.getD dJan2025).maxD (p.calc_start.getD dSep2024)))
      (some (p.join_date.getD t)) : ℚ) := by
    exact_mod_cast days_inclusive_nonneg _ _
  have hmq : (0 : ℚ) ≤ (p.projection_months.getD 24 : ℚ) := by exact_mod_cast hm
  have hpleg : (0 : ℚ) ≤
      if Date.le (p.legal_fee_date.getD dJan2026) (p.join_date.getD t)
      then p.legal_fee.getD 0 else 0 := by
    split
    · exact h6
    · exact le_refl 0
  have hprojleg : (0 : ℚ) ≤
      if Date.le (p.projection_start.getD dJan2026) (p.legal_fee_date.getD dJan2026) ∧
          Date.le (p.legal_fee_date.getD dJan2026) pe
      then p.legal_fee.getD 0 else 0 := by
    split
    · exact h6
    · exact le_refl 0
  have hpastco : (0 : ℚ) ≤
      p.past_cash_total.getD 0 +
        (p.portal_val.getD 0 + p.finance_val.getD 0 + p.website_val.getD 0) +
        p.monthly_ops.getD 0 * 12 / 365.25 *
          (days_inclusive (some (p.calc_start.getD dSep2024))
            (some (p.join_date.getD t)) : ℚ) +
        p.director_salary_year.getD 56000 / 365.25 *
          (days_inclusive
            (some ((p.director_start.getD dJan2025).maxD (p.calc_start.getD dSep2024)))
            (some (p.join_date.getD t)) : ℚ) +
        (if Date.le (p.legal_fee_date.getD dJan2026) (p.join_date.getD t)
         then p.legal_fee.getD 0 else 0) :=
    add_nonneg
      (add_nonneg
        (add_nonneg
          (add_nonneg h1 (add_nonneg (add_nonneg h2 h3) h4))
          (mul_nonneg
            (div_nonneg (mul_nonneg h5 (by norm_num)) (by norm_num)) hd1))
        (mul_nonneg (div_nonneg h7 (by norm_num)) hd2))
      hpleg
  have hprojco : (0 : ℚ) ≤
      p.monthly_ops.getD 0 * (p.projection_months.getD 24 : ℚ) +
        p.director_salary_year.getD 56000 * ((p.projection_months.getD 24 : ℚ) / 12) +
        (if Date.le (p.projection_start.getD dJan2026) (p.legal_fee_date.getD dJan2026) ∧
              Date.le (p.legal_fee_date.getD dJan2026) pe
         then p.legal_fee.getD 0 else 0) :=
    add_nonneg
      (add_nonneg (mul_nonneg h5 hmq)
        (mul_nonneg h7 (div_nonneg hmq (by norm_num))))
      hprojleg
  have hrivco : (0 : ℚ) ≤
      riv_component (p.projection_months.getD 24) (p.projection_start.getD dJan2026) pe
          (some (p.riv_bootcamp_start.getD (p.projection_start.getD dJan2026)))
          (p.riv_bootcamp_per_year.getD 4 * p.riv_bootcamp_amount.getD 7000) +
        riv_component (p.projection_months.getD 24) (p.projection_start.getD dJan2026) pe
          (some (p.riv_coaching_start.getD (p.projection_start.getD dJan2026)))
          (p.riv_coaching_per_year.getD 12 * p.riv_coaching_amount.getD 900) +
        riv_component (p.projection_months.getD 24) (p.projection_start.getD dJan2026) pe
          (some (p.riv_llm_start.getD (p.projection_start.getD dJan2026)))
          (p.riv_llm_clients.getD 1 * p.riv_llm_monthly.getD 300 * 12) :=
    add_nonneg
      (add_nonneg
        (riv_component_nonneg _ _ _ _ _ (mul_nonneg h8 h9))
        (riv_component_nonneg _ _ _ _ _ (mul_nonneg h10 h11)))
      (riv_component_nonneg _ _ _ _ _
        (mul_nonneg (mul_nonneg h12 h13) (by norm_num)))
  have havg : (0 : ℚ) ≤
      if 0 < p.projection_months.getD 24
      then (p.monthly_ops.getD 0 * (p.projection_months.getD 24 : ℚ) +
          p.director_salary_year.getD 56000 * ((p.projection_months.getD 24 : ℚ) / 12) +
          (if Date.le (p.projection_start.getD dJan2026)
                (p.legal_fee_date.getD dJan2026) ∧
              Date.le (p.legal_fee_date.getD dJan2026) pe
           then p.legal_fee.getD 0 else 0)) *
          (p.share_pct.getD 40 / 100) / (p.projection_months.getD 24 : ℚ)
      else 0 := by
    split
    · rename_i hpos
      exact div_nonneg (mul_nonneg hprojco hsh) (by exact_mod_cast le_of_lt hpos)
    · exact le_refl 0
  exact ⟨hpastco, mul_nonneg hpastco hsh, hprojco, mul_nonneg hprojco hsh,
    hrivco, mul_nonneg hrivco hsh, havg, mul_nonneg hpastco hsh,
    mul_nonneg hprojco hsh,
    add_nonneg (mul_nonneg hpastco hsh) (mul_nonneg hprojco hsh),
    mul_nonneg hrivco hsh⟩

/-- C4 witness: the non-negativity of all totals at the all-defaults input. -/
theorem c4_totals_nonneg_witness :
    0 ≤ (resultOf dJan2026 pDefaults).past_total_company ∧
    0 ≤ (resultOf dJan2026 pDefaults).past_total_friend ∧
    0 ≤ (resultOf dJan2026 pDefaults).proj_total_company ∧
    0 ≤ (resultOf dJan2026 pDefaults).proj_total_friend ∧
    0 ≤ (resultOf dJan2026 pDefaults).riv_total_company ∧
    0 ≤ (resultOf dJan2026 pDefaults).riv_total_friend ∧
    0 ≤ (resultOf dJan2026 pDefaults).proj_avg_month_friend ∧
    0 ≤ (resultOf dJan2026 pDefaults).summary_friend_due_to_join ∧
    0 ≤ (resultOf dJan2026 pDefaults).summary_friend_future ∧
    0 ≤ (resultOf dJan2026 pDefaults).summary_friend_total_all ∧
    0 ≤ (resultOf dJan2026 pDefaults).summary_friend_riv_projection :=
  c4_totals_nonneg dJan2026 pDefaults (resultOf dJan2026 pDefaults) rfl
    (by decide) (by decide) (by decide) (by decide) (by decide) (by decide)
    (by decide) (by decide) (by decide) (by decide) (by decide) (by decide)
    (by decide) (by decide) (by decide)

/-- C8: stakeholder totals are the company totals scaled by sharePercent/100. -/
theorem c8_share_linearity (t : Date) (p : Params) (r : Result)
    (h : calculate t p = some r) :
    r.past_total_friend = r.past_total_company * (r.inputs_share_pct / 100) ∧
    r.proj_total_friend = r.proj_total_company * (r.inputs_share_pct / 100) ∧
    r.riv_total_friend = r.riv_total_company * (r.inputs_share_pct / 100) := by
  obtain ⟨pe, hpe, hr⟩ := (calculate_eq_some t p r).mp h
  subst hr
  simp only [calculateCore]
  refine ⟨?_, ?_, ?_⟩ <;> ring

/-- C8 witness at the all-defaults input. -/
theorem c8_share_linearity_witness :
    (resultOf dJan2026 pDefaults).past_total_friend
        = (resultOf dJan2026 pDefaults).past_total_company
          * ((resultOf dJan2026 pDefaults).inputs_share_pct / 100) ∧
    (resultOf dJan2026 pDefaults).proj_total_friend
        = (resultOf dJan2026 pDefaults).proj_total_company
          * ((resultOf dJan2026 pDefaults).inputs_share_pct / 100) ∧
    (resultOf dJan2026 pDefaults).riv_total_friend
        = (resultOf dJan2026 pDefaults).riv_total_company
          * ((resultOf dJan2026 pDefaults).inputs_share_pct / 100) :=
  c8_share_linearity dJan2026 pDefaults (resultOf dJan2026 pDefaults) rfl


end BVShares
